import Mathlib

/-
Shallow embedding of reefine/Gemini-Feishu, file api/app.py.

The program is a Flask webhook (function webhook_handler, lines 92-155)
relaying Feishu chat events to the Gemini API, with a Vercel KV store used
as a credential cache (get_feishu_tenant_token, lines 29-54) and as a
session-history store (get/save/clear_conversation_history, lines 79-90).

Modelling choices:
  - JSON values (and the Python values decoded from them) are the inductive
    type JVal; Python None is JVal.null.
  - The KV store is a list of (key, value, expiry-time) entries inside an
    explicit state St carrying the current time; `kv.set key v ex` inserts
    an entry expiring at now + ex, `kv.get` returns the value while
    now < expiry and None afterwards, `kv.delete` removes the entry.
  - External calls (json.loads, the Feishu token-exchange endpoint, the
    Gemini chat call) are oracles supplied in an Env record; every call the
    code makes to the store or to the network is recorded in an Event trace
    so that claims about which endpoints are invoked can be stated.
  - Python exceptions that the source code does not catch are modelled with
    Except PyErr; exceptions it catches are resolved inside the embedding
    exactly where the corresponding try/except sits in the source.
-/

set_option maxHeartbeats 1000000

namespace GeminiFeishu

/-- JSON-like values as decoded by Flask's request.json / json.loads and
stored in Vercel KV. Python None is represented by `null`. An `obj` is a
Python dict, represented as its key/value list (keys distinct, first match
wins on lookup). -/
inductive JVal where
  | null
  | bool (b : Bool)
  | num (n : Int)
  | str (s : String)
  | arr (elems : List JVal)
  | obj (fields : List (String × JVal))
  deriving Repr

/-- Python exceptions that can escape the embedded code uncaught. -/
inductive PyErr where
  | attributeError
  | typeError
  | keyError
  deriving Repr, DecidableEq

/-- A stand-in for Python's str(e) on an exception, used only to build the
fallback reply text f"...错误: \x7be\x7d"; no claim depends on the exact text. -/
def PyErr.msg : PyErr → String
  | .attributeError => "AttributeError"
  | .typeError => "TypeError"
  | .keyError => "KeyError"

/-- Python truthiness of a decoded JSON value (`if data`, `if token`,
`if not user_text`, `history if history else []`). -/
def truthy : JVal → Bool
  | .null => false
  | .bool b => b
  | .num n => n != 0
  | .str s => s != ""
  | .arr xs => !xs.isEmpty
  | .obj fs => !fs.isEmpty

mutual

/-- Python `==` on decoded JSON values (used for data.get("code") == 0 and
header.get("event_type") != "im.message.receive_v1"). Bool and int compare
by value, as in Python; containers compare elementwise. -/
def pyEq : JVal → JVal → Bool
  | .null, .null => true
  | .bool a, .bool b => a == b
  | .bool a, .num n => (if a then (1 : Int) else 0) == n
  | .num n, .bool b => n == (if b then (1 : Int) else 0)
  | .num a, .num b => a == b
  | .str a, .str b => a == b
  | .arr a, .arr b => pyEqList a b
  | .obj a, .obj b => pyEqObj a b
  | _, _ => false

def pyEqList : List JVal → List JVal → Bool
  | [], [] => true
  | a :: as, b :: bs => pyEq a b && pyEqList as bs
  | _, _ => false

def pyEqObj : List (String × JVal) → List (String × JVal) → Bool
  | [], [] => true
  | (k1, v1) :: as, (k2, v2) :: bs => k1 == k2 && pyEq v1 v2 && pyEqObj as bs
  | _, _ => false

end

mutual

/-- Python repr of a decoded JSON value (string escaping inside reprs is not
modelled; no claim exercises it). -/
def pyRepr : JVal → String
  | .null => "None"
  | .bool true => "True"
  | .bool false => "False"
  | .num n => toString n
  | .str s => "\x27" ++ s ++ "\x27"
  | .arr xs => "[" ++ pyReprList xs ++ "]"
  | .obj fs => "\x7b" ++ pyReprObj fs ++ "\x7d"

def pyReprList : List JVal → String
  | [] => ""
  | [x] => pyRepr x
  | x :: xs => pyRepr x ++ ", " ++ pyReprList xs

def pyReprObj : List (String × JVal) → String
  | [] => ""
  | [(k, v)] => "\x27" ++ k ++ "\x27: " ++ pyRepr v
  | (k, v) :: fs => "\x27" ++ k ++ "\x27: " ++ pyRepr v ++ ", " ++ pyReprObj fs

end

/-- Python str() as applied inside an f-string: the identity on strings,
repr-like elsewhere (str(None) = "None"). -/
def pyStr : JVal → String
  | .str s => s
  | v => pyRepr v

/-- Python str.lower(), ASCII case only (the reserved command "/clear" is
ASCII). -/
def pyLower (s : String) : String := ⟨s.data.map Char.toLower⟩

/-- Characters of Python str.strip() with no argument: whitespace removed
from both ends. -/
def stripChars (l : List Char) : List Char :=
  ((l.dropWhile Char.isWhitespace).reverse.dropWhile Char.isWhitespace).reverse

/-- Python str.strip() with no argument. -/
def pyStrip (s : String) : String := ⟨stripChars s.data⟩

/-- Python str.replace(old, new) on character lists: replace each leftmost
non-overlapping occurrence of a nonempty pattern; skip counts characters of
a matched occurrence still to be consumed. -/
def listReplaceGo (pat rep : List Char) : Nat → List Char → List Char
  | _, [] => []
  | skip + 1, _c :: rest => listReplaceGo pat rep skip rest
  | 0, c :: rest =>
    if pat.isPrefixOf (c :: rest) && !pat.isEmpty then
      rep ++ listReplaceGo pat rep (pat.length - 1) rest
    else c :: listReplaceGo pat rep 0 rest

/-- Python str.replace(old, new) for a nonempty old (the code replaces the
fixed at-mention "@_user_1"). -/
def pyReplace (s old new : String) : String :=
  ⟨listReplaceGo old.data new.data 0 s.data⟩

/-- First-match lookup of a key in a dict's field list. -/
def lookupField (fields : List (String × JVal)) (k : String) : Option JVal :=
  (fields.find? (fun f => f.1 == k)).map (fun f => f.2)

/-- Python d.get(key, dflt): dict lookup with a default; on a non-dict
receiver (None, list, str, int, bool) the attribute access .get raises
AttributeError. A one-argument .get call passes dflt = null. -/
def pyDictGet (v : JVal) (k : String) (dflt : JVal) : Except PyErr JVal :=
  match v with
  | .obj fields => .ok ((lookupField fields k).getD dflt)
  | _ => .error .attributeError

/-- Substring test for Python `key in someString` with a nonempty key. -/
def strContains (s pat : String) : Bool := 2 ≤ (s.splitOn pat).length

/-- Python `key in v` for a string key: dict → key membership, list →
element membership under ==, str → substring test; on None/bool/int it
raises TypeError. -/
def pyContains (v : JVal) (key : String) : Except PyErr Bool :=
  match v with
  | .obj fs => .ok (fs.any (fun f => f.1 == key))
  | .arr xs => .ok (xs.any (fun x => pyEq x (.str key)))
  | .str s => .ok (strContains s key)
  | _ => .error .typeError

/-- Python v[key] for a string key: dict subscript (KeyError when absent);
on any non-dict receiver a string subscript raises TypeError. -/
def pyGetItem (v : JVal) (key : String) : Except PyErr JVal :=
  match v with
  | .obj fs =>
    match lookupField fs key with
    | some x => .ok x
    | none => .error .keyError
  | _ => .error .typeError

/-- Line 115: session_id = f"feishu_session_\x7bmessage.get('chat_id')\x7d_\x7b...user_id\x7d". -/
def mk_session_id (chat_id user_id : JVal) : String :=
  "feishu_session_" ++ pyStr chat_id ++ "_" ++ pyStr user_id

/-- The key of the cached Feishu tenant token (lines 31 and 46). -/
def tokenKey : String := "FEISHU_TENANT_ACCESS_TOKEN"

/-- State of the Vercel KV store plus the current time: each entry is
(key, stored value, absolute expiry time). -/
structure St where
  kv : List (String × JVal × Nat)
  now : Nat
  deriving Repr

/-- One external effect performed by the embedded code, in order. -/
inductive Event where
  | kvGet (key : String)
  | kvSet (key : String) (v : JVal) (ex : Nat)
  | kvDelete (key : String)
  | tokenExchange
  | replyPost (message_id : JVal) (content : String)
  | geminiCall (user_text : String)
  deriving Repr

/-- Whether an event is an invocation of the Gemini completion endpoint. -/
def Event.isGeminiCall : Event → Bool
  | .geminiCall _ => true
  | _ => false

/-- kv.get(key): the stored value while unexpired, None otherwise. -/
def kv_get (st : St) (key : String) : JVal :=
  match st.kv.find? (fun e => e.1 == key) with
  | some e => if st.now < e.2.2 then e.2.1 else .null
  | none => .null

/-- kv.set(key, v, ex): overwrite the entry, expiring ex seconds from now. -/
def kv_set (st : St) (key : String) (v : JVal) (ex : Nat) : St :=
  { st with kv := (key, v, st.now + ex) :: st.kv.filter (fun e => e.1 != key) }

/-- kv.delete(key): remove the entry if present. -/
def kv_delete (st : St) (key : String) : St :=
  { st with kv := st.kv.filter (fun e => e.1 != key) }

/-- Lines 79-82: get_conversation_history returns the stored history, or []
when the key is absent/expired or the stored value is falsy. -/
def get_conversation_history (st : St) (session_id : String) : JVal × List Event :=
  let history := kv_get st session_id
  (if truthy history then history else .arr [], [Event.kvGet session_id])

/-- Lines 84-86: save_conversation_history stores the history with a
one-hour (3600 s) expiry. -/
def save_conversation_history (st : St) (session_id : String) (history : JVal) :
    St × List Event :=
  (kv_set st session_id history 3600, [Event.kvSet session_id history 3600])

/-- Lines 88-90: clear_conversation_history deletes the key. -/
def clear_conversation_history (st : St) (session_id : String) : St × List Event :=
  (kv_delete st session_id, [Event.kvDelete session_id])

/-- Outcome of the POST to the Feishu token-exchange endpoint (lines 40-42):
either some requests.RequestException (network error, timeout, or a
non-2xx status surfaced by raise_for_status — all caught at line 52), or a
2xx reply whose parsed JSON body is the given value. -/
inductive HttpResult where
  | exn
  | json (body : JVal)
  deriving Repr

/-- Oracles for the external collaborators. jsonLoads abstracts Python's
json.loads on a string (a value, or a JSONDecodeError); gemini abstracts
start_chat(history) + send_message(user_text) + .text/.history as one call
returning (reply text, new chat.history) or an exception message. -/
structure Env where
  jsonLoads : String → Except Unit JVal
  tokenExchange : HttpResult
  gemini : JVal → String → Except String (String × JVal)

/-- Lines 29-54: get_feishu_tenant_token. Returns the cached token if
truthy; otherwise performs the exchange, caching a code-0 token for 6600 s,
and returns None on any caught failure. A non-dict 2xx JSON body would make
data.get raise AttributeError, which the except clause (RequestException
only) does not catch. -/
def get_feishu_tenant_token (env : Env) (st : St) :
    Except PyErr JVal × St × List Event :=
  if truthy (kv_get st tokenKey) then (.ok (kv_get st tokenKey), st, [Event.kvGet tokenKey])
  else
    match env.tokenExchange with
    | .exn => (.ok .null, st, [Event.kvGet tokenKey, Event.tokenExchange])
    | .json body =>
      match pyDictGet body "code" .null with
      | .error e => (.error e, st, [Event.kvGet tokenKey, Event.tokenExchange])
      | .ok code =>
        if pyEq code (.num 0) then
          match pyDictGet body "tenant_access_token" .null with
          | .error e => (.error e, st, [Event.kvGet tokenKey, Event.tokenExchange])
          | .ok tok =>
            (.ok tok, kv_set st tokenKey tok 6600,
              [Event.kvGet tokenKey, Event.tokenExchange,
                Event.kvSet tokenKey tok 6600])
        else (.ok .null, st, [Event.kvGet tokenKey, Event.tokenExchange])

/-- Lines 56-77: reply_to_feishu. With no token (falsy) it returns without
posting; otherwise it POSTs the reply, and a RequestException from the post
is caught and only logged, so the post's outcome is not modelled. -/
def reply_to_feishu (env : Env) (st : St) (message_id : JVal) (content : String) :
    Except PyErr Unit × St × List Event :=
  match get_feishu_tenant_token env st with
  | (.error e, st1, tr) => (.error e, st1, tr)
  | (.ok token, st1, tr) =>
    if truthy token then (.ok (), st1, tr ++ [Event.replyPost message_id content])
    else (.ok (), st1, tr)

/-- Lines 119-122, the part whose exceptions are caught: from the parse
outcome of the content string, take content_json.get("text", ""), strip it,
drop the at-mention and strip again; a JSONDecodeError from json.loads, an
AttributeError from .get on a non-dict parse result, or an AttributeError
from .strip() on a non-string text value is caught and leaves the empty
text. -/
def text_of_parsed : Except Unit JVal → String
  | .error _ => ""
  | .ok (.obj cf) =>
    match (lookupField cf "text").getD (.str "") with
    | .str t => pyStrip (pyReplace (pyStrip t) "@_user_1" "")
    | _ => ""
  | .ok _ => ""

/-- Lines 118-122: extract the user text from message.get("content", "\x7b\x7d").
json.loads on a non-string content value raises TypeError, which the except
clause (JSONDecodeError, AttributeError) does not catch. -/
def extract_user_text (loads : String → Except Unit JVal) (message : JVal) :
    Except PyErr String :=
  match pyDictGet message "content" (.str "\x7b\x7d") with
  | .error e => .error e
  | .ok (.str s) => .ok (text_of_parsed (loads s))
  | .ok _ => .error .typeError

/-- A Flask response: jsonify body plus the HTTP status code. -/
structure Response where
  body : JVal
  status : Nat
  deriving Repr

/-- flask.jsonify(v): a JSON response with status 200. -/
def jsonifyR (v : JVal) : Response := ⟨v, 200⟩

/-- The body jsonify produces for the status-only returns of the handler. -/
def statusBody (s : String) : JVal := .obj [("status", .str s)]

/-- Lines 151-153: the except-Exception branch of the Gemini block — reply
with the fallback error text; an exception escaping that reply call (e.g.
AttributeError out of get_feishu_tenant_token) propagates. -/
def gemini_except_branch (env : Env) (st : St) (message_id : JVal) (emsg : String) :
    Except PyErr Response × St × List Event :=
  match reply_to_feishu env st message_id
      ("机器人出了一点小问题，请稍后再试。\n错误: " ++ emsg) with
  | (.error e, st1, tr) => (.error e, st1, tr)
  | (.ok _, st1, tr) => (.ok (jsonifyR (statusBody "success")), st1, tr)

/-- Lines 124-155 of webhook_handler: the empty-text check, the /clear
command, and the Gemini call with its reply, given the already-computed
message_id, session_id and extracted user text. -/
def handle_user_text (env : Env) (st : St) (message_id : JVal) (session_id : String)
    (user_text : String) : Except PyErr Response × St × List Event :=
  if user_text = "" then
    (.ok (jsonifyR (statusBody "empty message ignored")), st, [])
  else if pyLower user_text = "/clear" then
    match reply_to_feishu env (clear_conversation_history st session_id).1 message_id
        "✅ 历史对话已清除，我们可以开始新的话题了。" with
    | (.error e, st2, tr2) =>
      (.error e, st2, (clear_conversation_history st session_id).2 ++ tr2)
    | (.ok _, st2, tr2) =>
      (.ok (jsonifyR (statusBody "success")), st2,
        (clear_conversation_history st session_id).2 ++ tr2)
  else
    match env.gemini (get_conversation_history st session_id).1 user_text with
    | .error emsg =>
      ((gemini_except_branch env st message_id emsg).1,
        (gemini_except_branch env st message_id emsg).2.1,
        (get_conversation_history st session_id).2 ++ [Event.geminiCall user_text]
          ++ (gemini_except_branch env st message_id emsg).2.2)
    | .ok (gemini_reply, newHistory) =>
      match reply_to_feishu env (save_conversation_history st session_id newHistory).1
          message_id gemini_reply with
      | (.error e, st3, tr3) =>
        ((gemini_except_branch env st3 message_id (PyErr.msg e)).1,
          (gemini_except_branch env st3 message_id (PyErr.msg e)).2.1,
          (get_conversation_history st session_id).2 ++ [Event.geminiCall user_text]
            ++ (save_conversation_history st session_id newHistory).2 ++ tr3
            ++ (gemini_except_branch env st3 message_id (PyErr.msg e)).2.2)
      | (.ok _, st3, tr3) =>
        (.ok (jsonifyR (statusBody "success")), st3,
          (get_conversation_history st session_id).2 ++ [Event.geminiCall user_text]
            ++ (save_conversation_history st session_id newHistory).2 ++ tr3)

/-- Lines 107-155: the chat-message path of webhook_handler, reached when
header.event_type is "im.message.receive_v1". -/
def handle_message (env : Env) (st : St) (data : JVal) :
    Except PyErr Response × St × List Event :=
  match pyDictGet data "event" (.obj []) with
  | .error e => (.error e, st, [])
  | .ok event =>
  match pyDictGet event "message" (.obj []) with
  | .error e => (.error e, st, [])
  | .ok message =>
  match pyDictGet event "sender" (.obj []) with
  | .error e => (.error e, st, [])
  | .ok sender =>
  match pyDictGet message "message_id" .null with
  | .error e => (.error e, st, [])
  | .ok message_id =>
  match pyDictGet message "chat_type" .null with
  | .error e => (.error e, st, [])
  | .ok _chat_type =>
  match pyDictGet message "chat_id" .null with
  | .error e => (.error e, st, [])
  | .ok chat_id =>
  match pyDictGet sender "sender_id" (.obj []) with
  | .error e => (.error e, st, [])
  | .ok sender_id =>
  match pyDictGet sender_id "user_id" .null with
  | .error e => (.error e, st, [])
  | .ok user_id =>
  match extract_user_text env.jsonLoads message with
  | .error e => (.error e, st, [])
  | .ok user_text =>
    handle_user_text env st message_id (mk_session_id chat_id user_id) user_text

/-- Lines 101-104: the event-type dispatch after the challenge check. -/
def dispatch_event (env : Env) (st : St) (data : JVal) :
    Except PyErr Response × St × List Event :=
  match pyDictGet data "header" (.obj []) with
  | .error e => (.error e, st, [])
  | .ok header =>
    match pyDictGet header "event_type" .null with
    | .error e => (.error e, st, [])
    | .ok et =>
      if pyEq et (.str "im.message.receive_v1") then handle_message env st data
      else (.ok (jsonifyR (statusBody "event ignored")), st, [])

/-- Lines 92-155: webhook_handler. data is the decoded request.json (null
for an absent/null body). Line 98 short-circuits: `data and "challenge" in
data` only evaluates the membership test when data is truthy. -/
def webhook_handler (env : Env) (st : St) (data : JVal) :
    Except PyErr Response × St × List Event :=
  match (if truthy data then pyContains data "challenge" else .ok false) with
  | .error e => (.error e, st, [])
  | .ok true =>
    match pyGetItem data "challenge" with
    | .error e => (.error e, st, [])
    | .ok v => (.ok (jsonifyR (.obj [("challenge", v)])), st, [])
  | .ok false => dispatch_event env st data



/-- Helper: a split of a character list at an underscore separator is unique
when neither left part contains an underscore. -/
theorem append_underscore_inj (xs : List Char) :
    ∀ zs ys ws : List Char, '_' ∉ xs → '_' ∉ zs →
      xs ++ '_' :: ys = zs ++ '_' :: ws → xs = zs ∧ ys = ws := by
  induction xs with
  | nil =>
    intro zs ys ws _ hz h
    cases zs with
    | nil =>
      refine ⟨rfl, ?_⟩
      simpa using h
    | cons z zt =>
      simp only [List.nil_append, List.cons_append] at h
      have hzeq : '_' = z := by injection h
      exact absurd (by rw [hzeq]; exact List.mem_cons_self z zt) hz
  | cons x xt ih =>
    intro zs ys ws hx hz h
    cases zs with
    | nil =>
      simp only [List.cons_append, List.nil_append] at h
      have hxe : x = '_' := by injection h
      exact absurd (by rw [← hxe]; exact List.mem_cons_self x xt) hx
    | cons z zt =>
      simp only [List.cons_append] at h
      have h1 : x = z := by injection h
      have h2 : xt ++ '_' :: ys = zt ++ '_' :: ws := by injection h
      have hx' : '_' ∉ xt := fun hm => hx (List.mem_cons_of_mem _ hm)
      have hz' : '_' ∉ zt := fun hm => hz (List.mem_cons_of_mem _ hm)
      obtain ⟨e1, e2⟩ := ih zt ys ws hx' hz' h2
      exact ⟨by rw [h1, e1], e2⟩

/-- C3 (amended): the derived session key is a deterministic function of the
(chat id, sender id) pair, and it is injective across pairs whose sender
identifier contains no underscore: the keys agree exactly when the pairs
agree. -/
theorem C3_session_key_stable_and_injective (c1 u1 c2 u2 : String)
    (h1 : '_' ∉ u1.data) (h2 : '_' ∉ u2.data) :
    mk_session_id (.str c1) (.str u1) = mk_session_id (.str c2) (.str u2)
      ↔ (c1 = c2 ∧ u1 = u2) := by
  constructor
  · intro h
    have hd := String.ext_iff.mp h
    have hu : ("_" : String).data = ['_'] := rfl
    simp only [mk_session_id, pyStr, String.data_append, hu, List.append_assoc,
      List.singleton_append] at hd
    -- hd : P ++ (c1.data ++ '_' :: u1.data) = P ++ (c2.data ++ '_' :: u2.data)
    have hd2 : c1.data ++ '_' :: u1.data = c2.data ++ '_' :: u2.data :=
      List.append_cancel_left hd
    have hr := congrArg List.reverse hd2
    simp only [List.reverse_append, List.reverse_cons, List.append_assoc,
      List.singleton_append] at hr
    -- hr : u1.data.reverse ++ '_' :: c1.data.reverse = u2.data.reverse ++ '_' :: c2.data.reverse
    have hx : '_' ∉ u1.data.reverse := by simpa [List.mem_reverse] using h1
    have hz : '_' ∉ u2.data.reverse := by simpa [List.mem_reverse] using h2
    obtain ⟨e1, e2⟩ := append_underscore_inj _ _ _ _ hx hz hr
    have eu : u1.data = u2.data := by
      have := congrArg List.reverse e1
      simpa using this
    have ec : c1.data = c2.data := by
      have := congrArg List.reverse e2
      simpa using this
    exact ⟨String.ext ec, String.ext eu⟩
  · rintro ⟨rfl, rfl⟩
    rfl

/-- C3 witness: applying the amended theorem at a concrete underscore-free
pair. -/
theorem C3_session_key_stable_and_injective_witness :
    mk_session_id (.str "oc1") (.str "u1") = mk_session_id (.str "oc1") (.str "u1")
      ↔ ("oc1" = "oc1" ∧ "u1" = "u1") :=
  C3_session_key_stable_and_injective "oc1" "u1" "oc1" "u1" (by decide) (by decide)

/-- C3 counterexample: the claim as stated is false — the pairs
("a_b", "c") and ("a", "b_c") are distinct but derive the same session
key feishu_session_a_b_c. -/
theorem C3_session_key_not_injective :
    mk_session_id (.str "a_b") (.str "c") = mk_session_id (.str "a") (.str "b_c")
      ∧ ¬ (("a_b", "c") = (("a" : String), ("b_c" : String))) := by
  constructor
  · rfl
  · decide

/-- C6: save_conversation_history followed immediately by
get_conversation_history returns exactly the sequence written. -/
theorem C6_save_then_get (st : St) (session_id : String) (l : List JVal) :
    (get_conversation_history
        (save_conversation_history st session_id (JVal.arr l)).1 session_id).1
      = JVal.arr l := by
  simp only [get_conversation_history, save_conversation_history, kv_set, kv_get]
  simp only [List.find?_cons, beq_self_eq_true, cond_true]
  simp only [show ∀ n : Nat, n < n + 3600 from fun n => by omega, if_true]
  cases l <;> simp [truthy]

/-- Environment for concrete witnesses and counterexamples: parse always
fails, the token exchange raises, Gemini raises. -/
def env0 : Env := ⟨fun _ => .error (), .exn, fun _ _ => .error "gemini unavailable"⟩

/-- Empty store at time zero. -/
def st0 : St := ⟨[], 0⟩

/-- C5: once get_feishu_tenant_token has fetched and cached a (truthy)
token, a call at any later time still inside the 6600-second TTL window
returns that token from the cache, leaves the store unchanged, and does not
invoke the token-exchange endpoint. -/
theorem C5_token_fetched_once_per_ttl (env : Env) (st : St)
    (body : List (String × JVal)) (tok : JVal)
    (hmiss : truthy (kv_get st tokenKey) = false)
    (hexch : env.tokenExchange = .json (.obj body))
    (hcode : pyEq ((lookupField body "code").getD .null) (.num 0) = true)
    (htok : (lookupField body "tenant_access_token").getD .null = tok)
    (htruthy : truthy tok = true) :
    get_feishu_tenant_token env st
      = (.ok tok, kv_set st tokenKey tok 6600,
          [Event.kvGet tokenKey, Event.tokenExchange, Event.kvSet tokenKey tok 6600])
    ∧ ∀ t, t < st.now + 6600 →
        get_feishu_tenant_token env { kv_set st tokenKey tok 6600 with now := t }
          = (.ok tok, { kv_set st tokenKey tok 6600 with now := t },
              [Event.kvGet tokenKey]) := by
  constructor
  · simp [get_feishu_tenant_token, hmiss, hexch, pyDictGet, hcode, htok]
  · intro t ht
    have hget : kv_get { kv_set st tokenKey tok 6600 with now := t } tokenKey = tok := by
      simp [kv_get, kv_set, List.find?_cons, ht]
    simp [get_feishu_tenant_token, hget, htruthy]

/-- Exchange body for the C5 witness. -/
def tokenBody : List (String × JVal) := [("code", .num 0), ("tenant_access_token", .str "tkn")]

/-- Environment whose token exchange succeeds, for the C5 witness. -/
def envTok : Env := ⟨fun _ => .error (), .json (.obj tokenBody), fun _ _ => .error "gemini unavailable"⟩

/-- C5 witness: concrete fetch at time 0, cached read-back at time 100. -/
theorem C5_token_fetched_once_per_ttl_witness :
    get_feishu_tenant_token envTok st0
      = (.ok (.str "tkn"), kv_set st0 tokenKey (.str "tkn") 6600,
          [Event.kvGet tokenKey, Event.tokenExchange,
            Event.kvSet tokenKey (.str "tkn") 6600])
    ∧ get_feishu_tenant_token envTok { kv_set st0 tokenKey (.str "tkn") 6600 with now := 100 }
      = (.ok (.str "tkn"), { kv_set st0 tokenKey (.str "tkn") 6600 with now := 100 },
          [Event.kvGet tokenKey]) := by
  have h := C5_token_fetched_once_per_ttl envTok st0 tokenBody (.str "tkn")
    (by decide) rfl (by decide) rfl (by decide)
  exact ⟨h.1, h.2 100 (by decide)⟩

/-- C9: when the cache is empty and the exchange fails — a RequestException
(network error or non-2xx status via raise_for_status) or a non-zero
provider code — get_feishu_tenant_token returns None without raising and
with exactly one exchange attempt, and reply_to_feishu then returns without
posting the reply. -/
theorem C9_exchange_failure_degrades_silently (env : Env) (st : St)
    (message_id : JVal) (content : String)
    (hmiss : truthy (kv_get st tokenKey) = false)
    (hfail : env.tokenExchange = .exn
      ∨ ∃ body, env.tokenExchange = .json (.obj body)
          ∧ pyEq ((lookupField body "code").getD .null) (.num 0) = false) :
    get_feishu_tenant_token env st
        = (.ok .null, st, [Event.kvGet tokenKey, Event.tokenExchange])
    ∧ reply_to_feishu env st message_id content
        = (.ok (), st, [Event.kvGet tokenKey, Event.tokenExchange]) := by
  have htok : get_feishu_tenant_token env st
      = (.ok .null, st, [Event.kvGet tokenKey, Event.tokenExchange]) := by
    rcases hfail with h | ⟨body, h, hcode⟩
    · simp [get_feishu_tenant_token, hmiss, h]
    · simp [get_feishu_tenant_token, hmiss, h, pyDictGet, hcode]
  refine ⟨htok, ?_⟩
  simp [reply_to_feishu, htok, truthy]

/-- C9 witness: concrete network failure on an empty cache; the reply to
message "m1" is skipped. -/
theorem C9_exchange_failure_degrades_silently_witness :
    get_feishu_tenant_token env0 st0
        = (.ok .null, st0, [Event.kvGet tokenKey, Event.tokenExchange])
    ∧ reply_to_feishu env0 st0 (.str "m1") "hello"
        = (.ok (), st0, [Event.kvGet tokenKey, Event.tokenExchange]) :=
  C9_exchange_failure_degrades_silently env0 st0 (.str "m1") "hello"
    (by decide) (Or.inl rfl)

/-- C7: clear_conversation_history followed by get_conversation_history
returns the empty sequence; clearing is idempotent, and a no-op when the
key is already absent. -/
theorem C7_clear_then_get (st : St) (session_id : String) :
    (get_conversation_history
        (clear_conversation_history st session_id).1 session_id).1 = JVal.arr []
    ∧ (clear_conversation_history
          (clear_conversation_history st session_id).1 session_id).1
        = (clear_conversation_history st session_id).1
    ∧ (st.kv.find? (fun e => e.1 == session_id) = none →
        (clear_conversation_history st session_id).1 = st) := by
  refine ⟨?_, ?_, ?_⟩
  · simp only [get_conversation_history, clear_conversation_history, kv_delete, kv_get]
    have hnone : (st.kv.filter (fun e => e.1 != session_id)).find?
        (fun e => e.1 == session_id) = none := by
      rw [List.find?_eq_none]
      intro x hx
      have hmem := (List.mem_filter.mp hx).2
      simpa [bne] using hmem
    simp [hnone, truthy]
  · simp only [clear_conversation_history, kv_delete]
    cases st with
    | mk kv now => simp [List.filter_filter]
  · intro h
    simp only [clear_conversation_history, kv_delete]
    cases st with
    | mk kv now =>
      simp only [St.mk.injEq, and_true]
      rw [List.filter_eq_self]
      intro x hx
      have hne := List.find?_eq_none.mp h x hx
      simpa [bne] using hne

/-- C7 witness: concrete store with the key present; clearing removes it,
reading it back gives [], clearing again changes nothing, and clearing the
empty store is a no-op. -/
theorem C7_clear_then_get_witness :
    (get_conversation_history (clear_conversation_history st0 "s").1 "s").1 = JVal.arr []
    ∧ (clear_conversation_history (clear_conversation_history st0 "s").1 "s").1
        = (clear_conversation_history st0 "s").1
    ∧ (clear_conversation_history st0 "s").1 = st0 := by
  obtain ⟨a, b, c⟩ := C7_clear_then_get st0 "s"
  exact ⟨a, b, c rfl⟩

/-- Helper: a successful field lookup means the key test succeeds somewhere. -/
theorem any_of_lookup_some (fs : List (String × JVal)) (k : String) (v : JVal)
    (h : lookupField fs k = some v) : fs.any (fun f => f.1 == k) = true := by
  rcases hf : fs.find? (fun f => f.1 == k) with _ | x
  · simp [lookupField, hf] at h
  · have hpx := List.find?_some hf
    exact List.any_eq_true.mpr ⟨x, List.mem_of_find?_eq_some hf, hpx⟩

/-- Helper: a dict with a found key is nonempty, hence truthy. -/
theorem truthy_obj_of_any (fs : List (String × JVal)) (p : String × JVal → Bool)
    (h : fs.any p = true) : truthy (.obj fs) = true := by
  cases fs with
  | nil => simp at h
  | cons a l => rfl

/-- Helper: when no "challenge" key is present the handler proceeds to the
event-type dispatch of lines 101-104. -/
theorem webhook_to_dispatch (env : Env) (st : St) (fields : List (String × JVal))
    (hch : fields.any (fun f => f.1 == "challenge") = false) :
    webhook_handler env st (.obj fields) = dispatch_event env st (.obj fields) := by
  have hcc : (if truthy (.obj fields) then pyContains (.obj fields) "challenge"
      else .ok false) = (.ok false : Except PyErr Bool) := by
    cases h : truthy (.obj fields) <;> simp [pyContains, hch]
  simp [webhook_handler, hcc]

/-- Line 103 in the negative: the header test fails, so the request is
answered with {"status": "event ignored"} and HTTP 200. -/
def headerNotReceive (fields : List (String × JVal)) : Bool :=
  match lookupField fields "header" with
  | none => true
  | some (.obj hf) =>
      !(pyEq ((lookupField hf "event_type").getD .null) (.str "im.message.receive_v1"))
  | some _ => false

/-- Helper: any body without a "challenge" key whose header does not carry
event_type "im.message.receive_v1" gets the 200 "event ignored" response,
with the store untouched and no external call. -/
theorem ignored_path (env : Env) (st : St) (fields : List (String × JVal))
    (hch : fields.any (fun f => f.1 == "challenge") = false)
    (hhd : headerNotReceive fields = true) :
    webhook_handler env st (.obj fields)
      = (.ok (jsonifyR (statusBody "event ignored")), st, []) := by
  rw [webhook_to_dispatch env st fields hch]
  unfold headerNotReceive at hhd
  rcases hlk : lookupField fields "header" with _ | hv
  · simp only [dispatch_event, pyDictGet]
    rw [hlk]
    simp [lookupField, pyEq]
  · rw [hlk] at hhd
    cases hv with
    | obj hf =>
      have hpe : pyEq ((lookupField hf "event_type").getD .null)
          (.str "im.message.receive_v1") = false := by
        simpa using hhd
      simp only [dispatch_event, pyDictGet]
      rw [hlk]
      simp [hpe]
    | null => simp at hhd
    | bool b => simp at hhd
    | num n => simp at hhd
    | str s => simp at hhd
    | arr xs => simp at hhd

/-- Helper: the challenge branch of line 98-99: any body with a "challenge"
key is answered by echoing the challenge, before any store or network
access. -/
theorem challenge_path (env : Env) (st : St) (fields : List (String × JVal)) (v : JVal)
    (h : lookupField fields "challenge" = some v) :
    webhook_handler env st (.obj fields)
      = (.ok (jsonifyR (.obj [("challenge", v)])), st, []) := by
  have hany := any_of_lookup_some fields "challenge" v h
  have htr : truthy (.obj fields) = true := truthy_obj_of_any fields _ hany
  simp [webhook_handler, htr, pyContains, hany, pyGetItem, h]

/-- C1 counterexample: the claim as stated is false — the body
{"input_text": "x"} is answered with {"status": "event ignored"}, a body
with no "result" field (the handler has no input_text branch at all). -/
theorem C1_input_text_has_no_result_field :
    webhook_handler env0 st0 (.obj [("input_text", .str "x")])
      = (.ok (jsonifyR (statusBody "event ignored")), st0, [])
    ∧ lookupField [("status", JVal.str "event ignored")] "result" = none :=
  ⟨rfl, rfl⟩

/-- C1 (amended): a POST body that is an object with an "input_text" string
(and no "challenge" key, and no header carrying event_type
"im.message.receive_v1") is answered synchronously with the JSON object
{"status": "event ignored"} — not a "result" field — and the handler
performs no read, write or delete on the session history store and no
outbound call (the effect trace is empty). -/
theorem C1_input_text_ignored_without_store_access (env : Env) (st : St)
    (fields : List (String × JVal)) (s : String)
    (_hin : lookupField fields "input_text" = some (.str s))
    (hch : fields.any (fun f => f.1 == "challenge") = false)
    (hhd : headerNotReceive fields = true) :
    webhook_handler env st (.obj fields)
      = (.ok (jsonifyR (statusBody "event ignored")), st, []) :=
  ignored_path env st fields hch hhd

/-- C1 witness: the amended theorem applied at the body {"input_text": "x"}. -/
theorem C1_input_text_ignored_without_store_access_witness :
    webhook_handler env0 st0 (.obj [("input_text", .str "x")])
      = (.ok (jsonifyR (statusBody "event ignored")), st0, []) :=
  C1_input_text_ignored_without_store_access env0 st0 [("input_text", .str "x")] "x"
    rfl (by decide) (by decide)

/-- C2 counterexample: the claim as stated is false — a JSON object body
matching neither known shape is answered with HTTP 200 (the success status
flask.jsonify produces), not a non-success rejection. -/
theorem C2_unrecognized_body_gets_200 :
    webhook_handler env0 st0 (.obj [("foo", .num 1)])
      = (.ok (jsonifyR (statusBody "event ignored")), st0, [])
    ∧ (jsonifyR (statusBody "event ignored")).status = 200 :=
  ⟨rfl, rfl⟩

/-- C2 (amended): a request body matching neither known shape (no
"challenge" key, no header with event_type "im.message.receive_v1", no
"input_text") is answered with HTTP 200 and body {"status": "event
ignored"} — a success status carrying an "ignored" marker, not a
non-200/415-style rejection. -/
theorem C2_unrecognized_body_ignored_with_200 (env : Env) (st : St)
    (fields : List (String × JVal))
    (hch : fields.any (fun f => f.1 == "challenge") = false)
    (hhd : headerNotReceive fields = true)
    (_hni : lookupField fields "input_text" = none) :
    webhook_handler env st (.obj fields)
      = (.ok (jsonifyR (statusBody "event ignored")), st, [])
    ∧ (jsonifyR (statusBody "event ignored")).status = 200 :=
  ⟨ignored_path env st fields hch hhd, rfl⟩

/-- C2 witness: the amended theorem applied at the body {"foo": 1}. -/
theorem C2_unrecognized_body_ignored_with_200_witness :
    webhook_handler env0 st0 (.obj [("foo", .num 1)])
      = (.ok (jsonifyR (statusBody "event ignored")), st0, [])
    ∧ (jsonifyR (statusBody "event ignored")).status = 200 :=
  C2_unrecognized_body_ignored_with_200 env0 st0 [("foo", .num 1)]
    (by decide) (by decide) rfl

/-- C10: any object body with a "challenge" key — even one that is also a
well-formed chat message event — is answered by echoing the challenge
value, with an empty effect trace: no key-value store access and no
outbound call; the challenge branch takes precedence over event dispatch. -/
theorem C10_challenge_echo_takes_precedence (env : Env) (st : St)
    (fields : List (String × JVal)) (v : JVal)
    (h : lookupField fields "challenge" = some v) :
    webhook_handler env st (.obj fields)
      = (.ok (jsonifyR (.obj [("challenge", v)])), st, []) :=
  challenge_path env st fields v h

/-- C10 witness: a body that is both a challenge and a complete chat
message event is answered by the challenge echo alone. -/
theorem C10_challenge_echo_takes_precedence_witness :
    webhook_handler env0 st0 (.obj
        [("challenge", .str "tok123"),
          ("header", .obj [("event_type", .str "im.message.receive_v1")]),
          ("event", .obj
            [("message", .obj [("message_id", .str "m1"), ("chat_id", .str "oc1")]),
              ("sender", .obj [("sender_id", .obj [("user_id", .str "u1")])])])])
      = (.ok (jsonifyR (.obj [("challenge", .str "tok123")])), st0, []) :=
  C10_challenge_echo_takes_precedence env0 st0 _ (.str "tok123") rfl

/-- A token-endpoint whose 2xx JSON bodies are objects, as the Feishu API
actually answers; a non-object body would make data.get at line 43 raise an
uncaught AttributeError. -/
def EnvOK (env : Env) : Bool :=
  match env.tokenExchange with
  | .exn => true
  | .json (.obj _) => true
  | .json _ => false

/-- Absent, or present and an object. -/
def fieldObjOK : Option JVal → Bool
  | none => true
  | some (.obj _) => true
  | some _ => false

/-- Absent, or present and a string. -/
def fieldStrOK : Option JVal → Bool
  | none => true
  | some (.str _) => true
  | some _ => false

/-- An event.message value the handler can process without an uncaught
exception: absent or an object whose "content", if present, is a string. -/
def messageShapeOK : Option JVal → Bool
  | none => true
  | some (.obj mf) => fieldStrOK (lookupField mf "content")
  | some _ => false

/-- An event.sender value the handler can process: absent or an object
whose "sender_id", if present, is an object. -/
def senderShapeOK : Option JVal → Bool
  | none => true
  | some (.obj sf) => fieldObjOK (lookupField sf "sender_id")
  | some _ => false

/-- An event value the handler can process. -/
def eventShapeOK : Option JVal → Bool
  | none => true
  | some (.obj ef) =>
      messageShapeOK (lookupField ef "message") && senderShapeOK (lookupField ef "sender")
  | some _ => false

/-- Bodies webhook_handler can process without an uncaught exception: an
object, whose nested routing fields have the shapes the .get chains
expect whenever the chat-message path is taken. -/
def bodyShapeOK : JVal → Bool
  | .obj fields =>
    if fields.any (fun f => f.1 == "challenge") then true
    else
      match lookupField fields "header" with
      | none => true
      | some (.obj hf) =>
        if pyEq ((lookupField hf "event_type").getD .null) (.str "im.message.receive_v1")
        then eventShapeOK (lookupField fields "event")
        else true
      | some _ => false
  | _ => false

/-- Helper: eliminate fieldObjOK into the default-applied object. -/
theorem fieldObj_elim (o : Option JVal) (h : fieldObjOK o = true) :
    ∃ f, o.getD (.obj []) = .obj f := by
  cases o with
  | none => exact ⟨[], rfl⟩
  | some v =>
    cases v with
    | obj f => exact ⟨f, rfl⟩
    | null => simp [fieldObjOK] at h
    | bool b => simp [fieldObjOK] at h
    | num n => simp [fieldObjOK] at h
    | str s => simp [fieldObjOK] at h
    | arr a => simp [fieldObjOK] at h

/-- Helper: eliminate fieldStrOK into the default-applied string. -/
theorem fieldStr_elim (o : Option JVal) (h : fieldStrOK o = true) :
    ∃ s, o.getD (.str "\x7b\x7d") = .str s := by
  cases o with
  | none => exact ⟨"\x7b\x7d", rfl⟩
  | some v =>
    cases v with
    | str s => exact ⟨s, rfl⟩
    | null => simp [fieldStrOK] at h
    | bool b => simp [fieldStrOK] at h
    | num n => simp [fieldStrOK] at h
    | arr a => simp [fieldStrOK] at h
    | obj f => simp [fieldStrOK] at h

/-- Helper: eliminate messageShapeOK. -/
theorem messageShape_elim (o : Option JVal) (h : messageShapeOK o = true) :
    ∃ mf, o.getD (.obj []) = .obj mf ∧ fieldStrOK (lookupField mf "content") = true := by
  cases o with
  | none => exact ⟨[], rfl, rfl⟩
  | some v =>
    cases v with
    | obj mf => exact ⟨mf, rfl, by simpa [messageShapeOK] using h⟩
    | null => simp [messageShapeOK] at h
    | bool b => simp [messageShapeOK] at h
    | num n => simp [messageShapeOK] at h
    | str s => simp [messageShapeOK] at h
    | arr a => simp [messageShapeOK] at h

/-- Helper: eliminate senderShapeOK. -/
theorem senderShape_elim (o : Option JVal) (h : senderShapeOK o = true) :
    ∃ sf, o.getD (.obj []) = .obj sf ∧ fieldObjOK (lookupField sf "sender_id") = true := by
  cases o with
  | none => exact ⟨[], rfl, rfl⟩
  | some v =>
    cases v with
    | obj sf => exact ⟨sf, rfl, by simpa [senderShapeOK] using h⟩
    | null => simp [senderShapeOK] at h
    | bool b => simp [senderShapeOK] at h
    | num n => simp [senderShapeOK] at h
    | str s => simp [senderShapeOK] at h
    | arr a => simp [senderShapeOK] at h

/-- Helper: eliminate eventShapeOK. -/
theorem eventShape_elim (o : Option JVal) (h : eventShapeOK o = true) :
    ∃ ef, o.getD (.obj []) = .obj ef
      ∧ messageShapeOK (lookupField ef "message") = true
      ∧ senderShapeOK (lookupField ef "sender") = true := by
  cases o with
  | none => exact ⟨[], rfl, rfl, rfl⟩
  | some v =>
    cases v with
    | obj ef =>
      have h2 := (Bool.and_eq_true _ _).mp (by simpa [eventShapeOK] using h)
      exact ⟨ef, rfl, h2.1, h2.2⟩
    | null => simp [eventShapeOK] at h
    | bool b => simp [eventShapeOK] at h
    | num n => simp [eventShapeOK] at h
    | str s => simp [eventShapeOK] at h
    | arr a => simp [eventShapeOK] at h

/-- Helper: text extraction cannot raise when the message content is absent
or a string. -/
theorem extract_ok (loads : String → Except Unit JVal) (mf : List (String × JVal))
    (h : fieldStrOK (lookupField mf "content") = true) :
    ∃ t, extract_user_text loads (.obj mf) = .ok t := by
  obtain ⟨s, hs⟩ := fieldStr_elim _ h
  exact ⟨text_of_parsed (loads s), by simp [extract_user_text, pyDictGet, hs]⟩

/-- Helper: under EnvOK the token fetch never raises. -/
theorem token_ok (env : Env) (st : St) (h : EnvOK env = true) :
    ∃ v st2 tr, get_feishu_tenant_token env st = (.ok v, st2, tr) := by
  unfold get_feishu_tenant_token
  by_cases htr : truthy (kv_get st tokenKey) = true
  · rw [if_pos htr]
    exact ⟨_, _, _, rfl⟩
  · rw [if_neg htr]
    rcases hex : env.tokenExchange with _ | body
    · simp only [hex]
      exact ⟨_, _, _, rfl⟩
    · unfold EnvOK at h
      rw [hex] at h
      cases body with
      | obj bf =>
        simp only [hex, pyDictGet]
        by_cases hc : pyEq ((lookupField bf "code").getD .null) (.num 0) = true
        · rw [if_pos hc]
          exact ⟨_, _, _, rfl⟩
        · rw [if_neg hc]
          exact ⟨_, _, _, rfl⟩
      | null => simp at h
      | bool b => simp at h
      | num n => simp at h
      | str s2 => simp at h
      | arr a => simp at h

/-- Helper: under EnvOK a reply attempt never raises. -/
theorem reply_ok (env : Env) (st : St) (mid : JVal) (c : String) (h : EnvOK env = true) :
    ∃ st2 tr, reply_to_feishu env st mid c = (.ok (), st2, tr) := by
  obtain ⟨v, st2, tr, htok⟩ := token_ok env st h
  simp only [reply_to_feishu, htok]
  split
  · exact ⟨_, _, rfl⟩
  · exact ⟨_, _, rfl⟩

/-- Helper: under EnvOK the except-Exception fallback reply never raises. -/
theorem except_ok (env : Env) (st : St) (mid : JVal) (emsg : String)
    (h : EnvOK env = true) :
    ∃ r st2 tr, gemini_except_branch env st mid emsg = (.ok r, st2, tr) := by
  obtain ⟨st2, tr, hrep⟩ := reply_ok env st mid
    ("机器人出了一点小问题，请稍后再试。\n错误: " ++ emsg) h
  simp only [gemini_except_branch, hrep]
  exact ⟨_, _, _, rfl⟩

/-- Helper: the token fetch records no Gemini call in its trace. -/
theorem token_no_gemini (env : Env) (st : St) :
    ((get_feishu_tenant_token env st).2.2).all (fun e => !e.isGeminiCall) = true := by
  unfold get_feishu_tenant_token
  by_cases htr : truthy (kv_get st tokenKey) = true
  · rw [if_pos htr]
    rfl
  · rw [if_neg htr]
    rcases hex : env.tokenExchange with _ | body
    · rfl
    · cases body with
      | obj bf =>
        simp only [pyDictGet]
        by_cases hc : pyEq ((lookupField bf "code").getD .null) (.num 0) = true
        · rw [if_pos hc]
          rfl
        · rw [if_neg hc]
          rfl
      | null => rfl
      | bool b => rfl
      | num n => rfl
      | str s2 => rfl
      | arr a => rfl

/-- Helper: a reply attempt records no Gemini call in its trace. -/
theorem reply_no_gemini (env : Env) (st : St) (mid : JVal) (c : String) :
    ((reply_to_feishu env st mid c).2.2).all (fun e => !e.isGeminiCall) = true := by
  have htok := token_no_gemini env st
  unfold reply_to_feishu
  rcases hg : get_feishu_tenant_token env st with ⟨res, st1, tr⟩
  rw [hg] at htok
  have htok2 : tr.all (fun e => !e.isGeminiCall) = true := htok
  cases res with
  | error e => exact htok2
  | ok u =>
    show ((if truthy u = true
        then ((Except.ok () : Except PyErr Unit), st1, tr ++ [Event.replyPost mid c])
        else ((Except.ok () : Except PyErr Unit), st1, tr)).2.2.all
          fun e => !e.isGeminiCall) = true
    by_cases htr : truthy u = true
    · rw [if_pos htr]
      show ((tr ++ [Event.replyPost mid c]).all fun e => !e.isGeminiCall) = true
      rw [List.all_append, htok2]
      rfl
    · rw [if_neg htr]
      exact htok2

/-- Helper: reduce the chat-message path to handle_user_text once the
routing fields have the shapes the .get chains expect. -/
theorem handle_message_reduce (env : Env) (st : St)
    (fields ef mf sf sidf : List (String × JVal)) (t : String)
    (hev : (lookupField fields "event").getD (.obj []) = .obj ef)
    (hmf : (lookupField ef "message").getD (.obj []) = .obj mf)
    (hsf : (lookupField ef "sender").getD (.obj []) = .obj sf)
    (hsidf : (lookupField sf "sender_id").getD (.obj []) = .obj sidf)
    (ht : extract_user_text env.jsonLoads (.obj mf) = .ok t) :
    handle_message env st (.obj fields)
      = handle_user_text env st ((lookupField mf "message_id").getD .null)
          (mk_session_id ((lookupField mf "chat_id").getD .null)
            ((lookupField sidf "user_id").getD .null)) t := by
  simp only [handle_message, pyDictGet, hev, hmf, hsf, hsidf, ht]

/-- Helper: under EnvOK the text-handling tail never raises. -/
theorem handle_user_text_ok (env : Env) (st : St) (mid : JVal) (sid t : String)
    (h : EnvOK env = true) :
    ∃ r st2 tr, handle_user_text env st mid sid t = (.ok r, st2, tr) := by
  unfold handle_user_text
  by_cases h1 : t = ""
  · rw [if_pos h1]
    exact ⟨_, _, _, rfl⟩
  · rw [if_neg h1]
    by_cases h2 : pyLower t = "/clear"
    · rw [if_pos h2]
      obtain ⟨st2, tr, hrep⟩ := reply_ok env (clear_conversation_history st sid).1 mid
        "✅ 历史对话已清除，我们可以开始新的话题了。" h
      simp only [hrep]
      exact ⟨_, _, _, rfl⟩
    · rw [if_neg h2]
      rcases hg : env.gemini (get_conversation_history st sid).1 t with em | pr
      · obtain ⟨r, st2, tr, hexc⟩ := except_ok env st mid em h
        simp only [hg, hexc]
        exact ⟨_, _, _, rfl⟩
      · rcases pr with ⟨rep, nh⟩
        obtain ⟨st3, tr3, hrep⟩ :=
          reply_ok env (save_conversation_history st sid nh).1 mid rep h
        simp only [hg, hrep]
        exact ⟨_, _, _, rfl⟩

/-- Helper: under EnvOK a shaped chat-message body never raises. -/
theorem handle_message_ok (env : Env) (st : St) (fields : List (String × JVal))
    (henv : EnvOK env = true)
    (hev : eventShapeOK (lookupField fields "event") = true) :
    ∃ r st2 tr, handle_message env st (.obj fields) = (.ok r, st2, tr) := by
  obtain ⟨ef, heq, hmsgS, hsndS⟩ := eventShape_elim _ hev
  obtain ⟨mf, hmeq, hcont⟩ := messageShape_elim _ hmsgS
  obtain ⟨sf, hseq, hsidS⟩ := senderShape_elim _ hsndS
  obtain ⟨sidf, hsideq⟩ := fieldObj_elim _ hsidS
  obtain ⟨t, ht⟩ := extract_ok env.jsonLoads mf hcont
  rw [handle_message_reduce env st fields ef mf sf sidf t heq hmeq hseq hsideq ht]
  exact handle_user_text_ok env st _ _ t henv

/-- C4 counterexample: the claim as stated is false — a null (absent) JSON
body makes data.get("header", {}) at line 102 raise an AttributeError that
escapes the handler (Flask turns it into a 500), so not every input returns
normally. -/
theorem C4_null_body_raises_attribute_error :
    webhook_handler env0 st0 .null = (.error PyErr.attributeError, st0, []) := rfl

/-- C4 (amended): for every request whose JSON body is an object whose
routing fields have the shapes the handler's .get chains expect (header /
event / message / sender / sender_id objects when present, message content
a string when present), and whose token-endpoint 2xx bodies are JSON
objects, the handler terminates normally and returns a response; a missing,
null or non-object body instead raises an uncaught AttributeError or
TypeError. -/
theorem C4_shaped_object_bodies_get_responses (env : Env) (st : St) (data : JVal)
    (henv : EnvOK env = true) (hsh : bodyShapeOK data = true) :
    ∃ r st2 tr, webhook_handler env st data = (Except.ok r, st2, tr) := by
  cases data with
  | obj fields =>
    by_cases hch : fields.any (fun f => f.1 == "challenge") = true
    · obtain ⟨x, hfind⟩ : ∃ x, fields.find? (fun f => f.1 == "challenge") = some x := by
        rcases hf : fields.find? (fun f => f.1 == "challenge") with _ | x
        · obtain ⟨a, ha, hp⟩ := List.any_eq_true.mp hch
          exact absurd hp (List.find?_eq_none.mp hf a ha)
        · exact ⟨x, hf⟩
      have hlk : lookupField fields "challenge" = some x.2 := by
        simp [lookupField, hfind]
      exact ⟨_, _, _, challenge_path env st fields x.2 hlk⟩
    · have hchf : fields.any (fun f => f.1 == "challenge") = false :=
        Bool.eq_false_iff.mpr hch
      rw [webhook_to_dispatch env st fields hchf]
      simp only [bodyShapeOK, hchf] at hsh
      rcases hlk : lookupField fields "header" with _ | hv
      · have hres : dispatch_event env st (.obj fields)
            = (.ok (jsonifyR (statusBody "event ignored")), st, []) := by
          simp only [dispatch_event, pyDictGet]
          rw [hlk]
          simp [lookupField, pyEq]
        exact ⟨_, _, _, hres⟩
      · rw [hlk] at hsh
        cases hv with
        | obj hf =>
          by_cases hpe : pyEq ((lookupField hf "event_type").getD .null)
              (.str "im.message.receive_v1") = true
          · have hsh2 : eventShapeOK (lookupField fields "event") = true := by
              simpa [hpe] using hsh
            have hdm : dispatch_event env st (.obj fields)
                = handle_message env st (.obj fields) := by
              simp only [dispatch_event, pyDictGet]
              rw [hlk]
              simp [hpe]
            rw [hdm]
            exact handle_message_ok env st fields henv hsh2
          · have hpef : pyEq ((lookupField hf "event_type").getD .null)
                (.str "im.message.receive_v1") = false := Bool.eq_false_iff.mpr hpe
            have hres : dispatch_event env st (.obj fields)
                = (.ok (jsonifyR (statusBody "event ignored")), st, []) := by
              simp only [dispatch_event, pyDictGet]
              rw [hlk]
              simp [hpef]
            exact ⟨_, _, _, hres⟩
        | null => simp at hsh
        | bool b => simp at hsh
        | num n => simp at hsh
        | str s2 => simp at hsh
        | arr a => simp at hsh
  | null => simp [bodyShapeOK] at hsh
  | bool b => simp [bodyShapeOK] at hsh
  | num n => simp [bodyShapeOK] at hsh
  | str s2 => simp [bodyShapeOK] at hsh
  | arr a => simp [bodyShapeOK] at hsh

/-- C4 witness: the amended theorem applied at a concrete shaped body. -/
theorem C4_shaped_object_bodies_get_responses_witness :
    ∃ r st2 tr, webhook_handler env0 st0 (.obj [("foo", .num 1)])
      = (Except.ok r, st2, tr) :=
  C4_shaped_object_bodies_get_responses env0 st0 (.obj [("foo", .num 1)])
    rfl (by decide)

/-- C8: for every chat-message request whose extracted text compares equal
to "/clear" case-insensitively, the handler issues the store delete for the
message's session key, and no event in the request's effect trace is an
invocation of the Gemini completion endpoint. -/
theorem C8_clear_command_never_calls_completion (env : Env) (st : St)
    (fields hf ef mf sf sidf : List (String × JVal)) (t : String)
    (hch : fields.any (fun f => f.1 == "challenge") = false)
    (hhd : lookupField fields "header" = some (.obj hf))
    (het : (lookupField hf "event_type").getD .null = .str "im.message.receive_v1")
    (hev : (lookupField fields "event").getD (.obj []) = .obj ef)
    (hmf : (lookupField ef "message").getD (.obj []) = .obj mf)
    (hsf : (lookupField ef "sender").getD (.obj []) = .obj sf)
    (hsidf : (lookupField sf "sender_id").getD (.obj []) = .obj sidf)
    (ht : extract_user_text env.jsonLoads (.obj mf) = .ok t)
    (hcl : pyLower t = "/clear") :
    Event.kvDelete (mk_session_id ((lookupField mf "chat_id").getD .null)
        ((lookupField sidf "user_id").getD .null))
      ∈ (webhook_handler env st (.obj fields)).2.2
    ∧ ((webhook_handler env st (.obj fields)).2.2.all
        (fun e => !e.isGeminiCall)) = true := by
  have hne : t ≠ "" := fun h => absurd (h ▸ hcl) (by decide)
  have hpe : pyEq ((lookupField hf "event_type").getD .null)
      (.str "im.message.receive_v1") = true := by
    rw [het]
    decide
  have hwd := webhook_to_dispatch env st fields hch
  have hdm : dispatch_event env st (.obj fields)
      = handle_message env st (.obj fields) := by
    simp only [dispatch_event, pyDictGet]
    rw [hhd]
    simp [hpe]
  have hmr := handle_message_reduce env st fields ef mf sf sidf t hev hmf hsf hsidf ht
  set sid := mk_session_id ((lookupField mf "chat_id").getD .null)
    ((lookupField sidf "user_id").getD .null) with hsiddef
  set mid := (lookupField mf "message_id").getD JVal.null with hmiddef
  rcases hrep : reply_to_feishu env (clear_conversation_history st sid).1 mid
      "✅ 历史对话已清除，我们可以开始新的话题了。" with ⟨res, st2, tr2⟩
  have hng : tr2.all (fun e => !e.isGeminiCall) = true := by
    have h2 := reply_no_gemini env (clear_conversation_history st sid).1 mid
      "✅ 历史对话已清除，我们可以开始新的话题了。"
    rw [hrep] at h2
    exact h2
  have hw : (webhook_handler env st (.obj fields)).2.2 = Event.kvDelete sid :: tr2 := by
    rw [hwd, hdm, hmr]
    unfold handle_user_text
    rw [if_neg hne, if_pos hcl, hrep]
    cases res with
    | error e => rfl
    | ok u => rfl
  constructor
  · rw [hw]
    exact List.mem_cons_self _ _
  · rw [hw, List.all_cons, hng]
    rfl

/-- Environment for the C8 witness: the content parse yields the text
"/CLEAR". -/
def envClear : Env :=
  ⟨fun _ => .ok (.obj [("text", .str "/CLEAR")]), .exn,
    fun _ _ => .error "gemini unavailable"⟩

/-- Concrete chat-message body parts for the C8 witness. -/
def hfW : List (String × JVal) := [("event_type", .str "im.message.receive_v1")]

def mfW : List (String × JVal) := [("message_id", .str "m1"), ("chat_id", .str "oc1")]

def sidfW : List (String × JVal) := [("user_id", .str "u1")]

def sfW : List (String × JVal) := [("sender_id", .obj sidfW)]

def efW : List (String × JVal) := [("message", .obj mfW), ("sender", .obj sfW)]

def fieldsW : List (String × JVal) := [("header", .obj hfW), ("event", .obj efW)]

/-- C8 witness: a concrete "/CLEAR" message deletes the session key
feishu_session_oc1_u1 and never calls the completion endpoint. -/
theorem C8_clear_command_never_calls_completion_witness :
    Event.kvDelete (mk_session_id (.str "oc1") (.str "u1"))
      ∈ (webhook_handler envClear st0 (.obj fieldsW)).2.2
    ∧ ((webhook_handler envClear st0 (.obj fieldsW)).2.2.all
        (fun e => !e.isGeminiCall)) = true :=
  C8_clear_command_never_calls_completion envClear st0 fieldsW hfW efW mfW sfW sidfW
    "/CLEAR" (by decide) rfl rfl rfl rfl rfl rfl rfl (by decide)

end GeminiFeishu
